import Mathlib

/-!
Verification development for the RuralMarkNet marketplace application.

The definitions below are a shallow embedding of the order / cart / payment /
delivery workflow found in the repository (orders/models.py, orders/views.py,
payments/models.py, payments/views.py, accounts/models.py, orders/forms.py,
orders/signals.py).  Monetary amounts are modelled as integers in the smallest
currency unit, so that `quantity × price` is exact, matching the fixed
two-decimal arithmetic of the source.
-/

namespace RuralMarkNet

/-- Order.Status choices from orders/models.py. -/
inductive OrderStatus where
  | cart
  | pending
  | confirmed
  | shipped
  | delivered
  | cancelled
deriving DecidableEq, Repr

/-- Order.PaymentStatus choices from orders/models.py. -/
inductive PaymentStatus where
  | unpaid
  | paid
  | refunded
  | failed
deriving DecidableEq, Repr

/-- Payment.Status choices from payments/models.py. -/
inductive PayStatus where
  | initiated
  | success
  | failed
  | refunded
deriving DecidableEq, Repr

/-- Delivery.Status choices from deliveries/models.py. -/
inductive DeliveryStatus where
  | pending
  | scheduled
  | inTransit
  | completed
  | cancelled
deriving DecidableEq, Repr

/-- Database string code of an order status, as stored by the TextChoices. -/
def statusCode : OrderStatus → String
  | .cart => "cart"
  | .pending => "pending"
  | .confirmed => "confirmed"
  | .shipped => "shipped"
  | .delivered => "delivered"
  | .cancelled => "cancelled"

/-- Payment.Providers codes from payments/models.py: stripe, paypal, cod. -/
def validPaymentMethods : List String := ["stripe", "paypal", "cod"]

/-- A catalogue listing (products/models.py Product): price, on-hand
inventory, availability flag and the owning farmer. -/
structure Product where
  id : Nat
  farmerId : Nat
  price : Int
  inventory : Nat
  available : Bool
deriving DecidableEq, Repr

/-- A line item row (orders/models.py OrderItem): quantity, snapshotted unit
price and the derived line_total. -/
structure OrderItem where
  productId : Nat
  quantity : Nat
  price : Int
  lineTotal : Int
deriving DecidableEq, Repr

/-- An order row (orders/models.py Order) carrying its line items. -/
structure Order where
  id : Nat
  customerId : Nat
  status : OrderStatus
  paymentStatus : PaymentStatus
  totalAmount : Int
  deliveryAddress : String
  scheduledDate : Option Nat
  scheduledWindow : String
  notes : String
  items : List OrderItem
deriving DecidableEq, Repr

/-- A payment row (payments/models.py Payment). -/
structure Payment where
  id : Nat
  orderId : Nat
  provider : String
  status : PayStatus
  amount : Int
  currency : String
  transactionId : String
  rawResponse : String
deriving DecidableEq, Repr

/-- A delivery row (deliveries/models.py Delivery). -/
structure Delivery where
  orderId : Nat
  status : DeliveryStatus
  assignedFarmer : Option Nat
deriving DecidableEq, Repr

/-- An audit log row (accounts/models.py AuditLog), metadata as key/value
pairs.  The audit list is kept newest first, matching the model ordering. -/
structure AuditEntry where
  userId : Option Nat
  action : String
  objectId : String
  metadata : List (String × String)
deriving DecidableEq, Repr

/-- The Sum aggregate over line_total used by Order.recalculate_total; the
aggregate of an empty set is None, coalesced to 0.00 in the source. -/
def sumLineTotals (items : List OrderItem) : Int :=
  items.foldl (fun acc it => acc + it.lineTotal) 0

/-- Order.recalculate_total from orders/models.py: store the aggregate of the
line totals into total_amount. -/
def Order.recalculateTotal (o : Order) : Order :=
  { o with totalAmount := sumLineTotals o.items }

/-- line_total := quantity × price, the first step of OrderItem.save. -/
def OrderItem.computeLineTotal (it : OrderItem) : OrderItem :=
  { it with lineTotal := (it.quantity : Int) * it.price }

/-- Persist a line item inside its order: replace the row for the same
product when it exists (unique_together order/product), append otherwise. -/
def upsertItem (items : List OrderItem) (it : OrderItem) : List OrderItem :=
  if items.any (fun x => x.productId = it.productId) then
    items.map (fun x => if x.productId = it.productId then it else x)
  else
    items ++ [it]

/-- OrderItem.save from orders/models.py: recompute line_total, persist the
row, then call Order.recalculate_total on the parent order. -/
def Order.saveItem (o : Order) (it : OrderItem) : Order :=
  Order.recalculateTotal { o with items := upsertItem o.items it.computeLineTotal }

/-- OrderItem.delete from orders/models.py: remove the row, then call
Order.recalculate_total on the parent order. -/
def Order.deleteItem (o : Order) (pid : Nat) : Order :=
  Order.recalculateTotal { o with items := o.items.filter (fun x => x.productId ≠ pid) }

/-- Every stored line_total equals quantity × snapshotted price. -/
def Order.itemsWellFormed (o : Order) : Prop :=
  ∀ it ∈ o.items, it.lineTotal = (it.quantity : Int) * it.price

/-- The denormalised total matches the aggregate of the line totals. -/
def Order.totalInvariant (o : Order) : Prop :=
  o.totalAmount = sumLineTotals o.items

theorem recalculateTotal_totalInvariant (o : Order) :
    o.recalculateTotal.totalInvariant := by
  simp [Order.recalculateTotal, Order.totalInvariant]

theorem saveItem_totalInvariant (o : Order) (it : OrderItem) :
    (o.saveItem it).totalInvariant := by
  simp [Order.saveItem, Order.recalculateTotal, Order.totalInvariant]

theorem deleteItem_totalInvariant (o : Order) (pid : Nat) :
    (o.deleteItem pid).totalInvariant := by
  simp [Order.deleteItem, Order.recalculateTotal, Order.totalInvariant]

theorem saveItem_itemsWellFormed (o : Order) (it : OrderItem)
    (h : o.itemsWellFormed) : (o.saveItem it).itemsWellFormed := by
  intro x hx
  simp only [Order.saveItem, Order.recalculateTotal, upsertItem] at hx
  by_cases hmem : o.items.any (fun x => x.productId = it.computeLineTotal.productId)
  · simp only [hmem, if_true, List.mem_map] at hx
    obtain ⟨y, hy, hxy⟩ := hx
    by_cases hid : y.productId = it.computeLineTotal.productId
    · simp only [hid, if_true] at hxy
      subst hxy
      simp [OrderItem.computeLineTotal]
    · simp only [hid, if_false] at hxy
      subst hxy
      exact h y hy
  · simp only [hmem, if_false] at hx
    rcases List.mem_append.mp hx with hx | hx
    · exact h x hx
    · rw [List.mem_singleton.mp hx]
      simp [OrderItem.computeLineTotal]

theorem deleteItem_itemsWellFormed (o : Order) (pid : Nat)
    (h : o.itemsWellFormed) : (o.deleteItem pid).itemsWellFormed := by
  intro x hx
  simp only [Order.deleteItem, Order.recalculateTotal] at hx
  exact h x (List.mem_of_mem_filter hx)

/-- A sample cart order used to instantiate theorems with hypotheses. -/
def sampleOrder : Order :=
  { id := 1, customerId := 7, status := .cart, paymentStatus := .unpaid,
    totalAmount := 0, deliveryAddress := "", scheduledDate := none,
    scheduledWindow := "", notes := "", items := [] }

/-- A sample line item used to instantiate theorems with hypotheses. -/
def sampleItem : OrderItem :=
  { productId := 3, quantity := 2, price := 1500, lineTotal := 3000 }

/-- C1: after any line-item mutation (OrderItem save or delete), the order's
total_amount equals the sum over its line items of line_total, each line_total
equals quantity × price, and total_amount is 0 when the order has no items. -/
theorem c1_total_after_item_mutation (o : Order) (it : OrderItem) (pid : Nat)
    (h : o.itemsWellFormed) :
    ((o.saveItem it).itemsWellFormed ∧ (o.saveItem it).totalInvariant) ∧
    ((o.deleteItem pid).itemsWellFormed ∧ (o.deleteItem pid).totalInvariant) ∧
    ((o.saveItem it).items = [] → (o.saveItem it).totalAmount = 0) ∧
    ((o.deleteItem pid).items = [] → (o.deleteItem pid).totalAmount = 0) := by
  refine ⟨⟨saveItem_itemsWellFormed o it h, saveItem_totalInvariant o it⟩,
    ⟨deleteItem_itemsWellFormed o pid h, deleteItem_totalInvariant o pid⟩, ?_, ?_⟩
  · intro he
    have := saveItem_totalInvariant o it
    rw [Order.totalInvariant, he] at this
    simpa [sumLineTotals] using this
  · intro he
    have := deleteItem_totalInvariant o pid
    rw [Order.totalInvariant, he] at this
    simpa [sumLineTotals] using this

/-- Witness for C1 at a concrete empty order and concrete line item. -/
theorem c1_total_after_item_mutation_witness :
    ((sampleOrder.saveItem sampleItem).itemsWellFormed ∧
      (sampleOrder.saveItem sampleItem).totalInvariant) ∧
    ((sampleOrder.deleteItem 3).itemsWellFormed ∧
      (sampleOrder.deleteItem 3).totalInvariant) ∧
    ((sampleOrder.saveItem sampleItem).items = [] →
      (sampleOrder.saveItem sampleItem).totalAmount = 0) ∧
    ((sampleOrder.deleteItem 3).items = [] →
      (sampleOrder.deleteItem 3).totalAmount = 0) :=
  c1_total_after_item_mutation sampleOrder sampleItem 3
    (by intro it hit; simp [sampleOrder] at hit)

/-- Replace every row whose key matches the key of `x` by `x` (the effect of
saving an existing row back through the ORM). -/
def updateBy {α : Type} (key : α → Nat) (l : List α) (x : α) : List α :=
  l.map (fun q => if key q = key x then x else q)

theorem find?_updateBy {α : Type} (key : α → Nat) (l : List α) (x : α) (k : Nat) :
    (updateBy key l x).find? (fun q => decide (key q = k))
      = (l.find? (fun q => decide (key q = k))).map
          (fun q => if key q = key x then x else q) := by
  induction l with
  | nil => rfl
  | cons q₀ rest ih =>
    have hkey : key (if key q₀ = key x then x else q₀) = key q₀ := by
      by_cases hx : key q₀ = key x <;> simp [hx]
    by_cases hk : key q₀ = k
    · rw [updateBy, List.map_cons,
        List.find?_cons_of_pos _ (by rw [hkey]; exact decide_eq_true hk),
        List.find?_cons_of_pos _ (by exact decide_eq_true hk)]
      rfl
    · rw [updateBy, List.map_cons,
        List.find?_cons_of_neg _ (by rw [hkey]; simp [hk]),
        List.find?_cons_of_neg _ (by simp [hk])]
      simpa [updateBy] using ih

/-- Outcome reported by the add_to_cart view (orders/views.py): the
out-of-stock warning, the already-at-maximum notice, or a success message
carrying the number of units added and whether the request was capped. -/
inductive AddOutcome where
  | outOfStock
  | alreadyMax
  | added (count : Nat) (capped : Bool)
deriving DecidableEq, Repr

/-- Units reported as added by an outcome. -/
def addedCount : AddOutcome → Nat
  | .added n _ => n
  | _ => 0

/-- The line item of the cart for a given product, when present. -/
def lookupItem (o : Order) (pid : Nat) : Option OrderItem :=
  o.items.find? (fun it => decide (it.productId = pid))

/-- item.quantity for the existing row, or 0 for a freshly created row
(add_to_cart builds `OrderItem(..., quantity=0, ...)` when absent). -/
def currentQuantity (o : Order) (pid : Nat) : Nat :=
  match lookupItem o pid with
  | some it => it.quantity
  | none => 0

/-- Quantity parsing in add_to_cart: default 1 on a missing or unparseable
value, then floored at 1. -/
def parseQuantity (raw : Option Int) : Int :=
  let q := match raw with | some n => n | none => 1
  if q < 1 then 1 else q

/-- add_to_cart from orders/views.py, for an available product: parse the
quantity, bail out when out of stock, cap the addition at
`inventory - already_in_cart`, then upsert the line item with the current
product price and let OrderItem.save recompute line_total and the order
total. -/
def addToCart (p : Product) (cart : Order) (raw : Option Int) :
    Order × AddOutcome :=
  let quantity := parseQuantity raw
  if p.inventory ≤ 0 then (cart, .outOfStock)
  else
    let current := currentQuantity cart p.id
    let maxAdditional := p.inventory - current
    if maxAdditional ≤ 0 then (cart, .alreadyMax)
    else
      let addQuantity := min quantity (maxAdditional : Int)
      let newItem : OrderItem :=
        { productId := p.id, quantity := current + addQuantity.toNat,
          price := p.price, lineTotal := 0 }
      (cart.saveItem newItem, .added addQuantity.toNat (decide (addQuantity < quantity)))

/-- C5: the quantity actually added is exactly `min q (max 0 (I - c))`; when
the cap is zero the operation leaves the cart unchanged with a no-op notice,
and when the cap is positive but below the request exactly the cap is added
with the partial-fulfillment flag set. -/
theorem c5_add_to_cart_cap (p : Product) (cart : Order) (raw : Option Int) :
    addedCount (addToCart p cart raw).2
      = min (parseQuantity raw).toNat (p.inventory - currentQuantity cart p.id) ∧
    (p.inventory - currentQuantity cart p.id = 0 →
      (addToCart p cart raw).1 = cart ∧
      ((addToCart p cart raw).2 = .outOfStock ∨
        (addToCart p cart raw).2 = .alreadyMax)) ∧
    (0 < p.inventory - currentQuantity cart p.id →
      (((p.inventory - currentQuantity cart p.id : Nat) : Int) < parseQuantity raw →
        (addToCart p cart raw).2
          = .added (p.inventory - currentQuantity cart p.id) true)) := by
  have hq1 : 1 ≤ parseQuantity raw := by
    unfold parseQuantity
    by_cases h : (match raw with | some n => n | none => 1) < 1
    · simp [h]
    · simp [h]
      omega
  by_cases h0 : p.inventory ≤ 0
  · have hz : p.inventory = 0 := Nat.le_zero.mp h0
    refine ⟨?_, ?_, ?_⟩
    · simp [addToCart, h0, addedCount, hz]
    · intro _
      exact ⟨by simp [addToCart, h0], Or.inl (by simp [addToCart, h0])⟩
    · intro hc
      omega
  · by_cases hmax : p.inventory - currentQuantity cart p.id ≤ 0
    · have hz : p.inventory - currentQuantity cart p.id = 0 := Nat.le_zero.mp hmax
      refine ⟨?_, ?_, ?_⟩
      · simp [addToCart, h0, hmax, addedCount, hz]
      · intro _
        exact ⟨by simp [addToCart, h0, hmax], Or.inr (by simp [addToCart, h0, hmax])⟩
      · intro hc
        omega
    · refine ⟨?_, fun hc => absurd hc (by omega), ?_⟩
      · simp only [addToCart, h0, hmax, if_false, addedCount]
        omega
      · intro _ hlt
        have hmin : min (parseQuantity raw)
            ((p.inventory - currentQuantity cart p.id : Nat) : Int)
            = ((p.inventory - currentQuantity cart p.id : Nat) : Int) :=
          min_eq_right (le_of_lt hlt)
        simp only [addToCart, h0, hmax, if_false]
        rw [hmin]
        simp [hlt]

theorem computeLineTotal_productId (it : OrderItem) :
    it.computeLineTotal.productId = it.productId := rfl

/-- Saving an item whose product already has a row in the order replaces that
row with the recomputed item. -/
theorem lookup_saveItem_existing (cart : Order) (old newIt : OrderItem) (pid : Nat)
    (hold : lookupItem cart pid = some old) (hpid : newIt.productId = pid) :
    lookupItem (cart.saveItem newIt) pid = some newIt.computeLineTotal := by
  have hmem := List.mem_of_find?_eq_some hold
  have holdpid : old.productId = pid := by
    have := List.find?_some hold
    simpa using this
  have hany : cart.items.any
      (fun x => x.productId = newIt.computeLineTotal.productId) = true := by
    refine List.any_eq_true.mpr ⟨old, hmem, ?_⟩
    simp [computeLineTotal_productId, hpid, holdpid]
  simp only [Order.saveItem, Order.recalculateTotal, upsertItem, hany, if_true,
    lookupItem]
  have hfind := find?_updateBy OrderItem.productId cart.items
    newIt.computeLineTotal pid
  simp only [updateBy] at hfind
  rw [hfind]
  rw [lookupItem] at hold
  rw [hold]
  simp [computeLineTotal_productId, hpid, holdpid]

/-- C10: adding a product already in the cart overwrites the stored unit
price with the product's current price, so the whole line (previous units
included) is repriced and line_total is recomputed from the new price. -/
theorem c10_reprice_on_add (p : Product) (cart : Order) (raw : Option Int)
    (old : OrderItem) (hold : lookupItem cart p.id = some old)
    (hcap : old.quantity < p.inventory) :
    lookupItem (addToCart p cart raw).1 p.id = some
      { productId := p.id,
        quantity := old.quantity + addedCount (addToCart p cart raw).2,
        price := p.price,
        lineTotal := ((old.quantity + addedCount (addToCart p cart raw).2 : Nat) : Int)
          * p.price } := by
  have hcur : currentQuantity cart p.id = old.quantity := by
    simp [currentQuantity, hold]
  have h0 : ¬ p.inventory ≤ 0 := by omega
  have hmax : ¬ p.inventory - currentQuantity cart p.id ≤ 0 := by
    rw [hcur]; omega
  simp only [addToCart, h0, hmax, if_false, addedCount]
  rw [lookup_saveItem_existing cart old _ p.id hold rfl]
  simp [OrderItem.computeLineTotal, hcur]

/-- A sample product used to instantiate theorems with hypotheses. -/
def sampleProduct : Product :=
  { id := 3, farmerId := 11, price := 1500, inventory := 2, available := true }

/-- A cart already holding one unit of the sample product at an older price. -/
def sampleCartWithItem : Order :=
  { sampleOrder with items := [⟨3, 1, 900, 900⟩] }

/-- Witness for C5 at the spec scenario: inventory 2, empty cart, request 3. -/
theorem c5_add_to_cart_cap_witness :
    addedCount (addToCart sampleProduct sampleOrder (some 3)).2
      = min (parseQuantity (some 3)).toNat
          (sampleProduct.inventory - currentQuantity sampleOrder sampleProduct.id) ∧
    (0 < sampleProduct.inventory - currentQuantity sampleOrder sampleProduct.id) ∧
    (addToCart sampleProduct sampleOrder (some 3)).2 = .added 2 true :=
  ⟨(c5_add_to_cart_cap sampleProduct sampleOrder (some 3)).1, by decide,
    ((c5_add_to_cart_cap sampleProduct sampleOrder (some 3)).2.2 (by decide)) (by decide)⟩

/-- Witness for C10 at a cart holding one unit priced 900 while the product
now costs 1500: the whole line is repriced at 1500. -/
theorem c10_reprice_on_add_witness :
    lookupItem (addToCart sampleProduct sampleCartWithItem (some 3)).1 3 = some
      { productId := 3,
        quantity := 1 + addedCount (addToCart sampleProduct sampleCartWithItem (some 3)).2,
        price := 1500,
        lineTotal :=
          ((1 + addedCount (addToCart sampleProduct sampleCartWithItem (some 3)).2 : Nat) : Int)
            * 1500 } :=
  c10_reprice_on_add sampleProduct sampleCartWithItem (some 3)
    ⟨3, 1, 900, 900⟩ (by decide) (by decide)

/-- User.get_accepted_payment_methods from accounts/models.py: a configured
non-empty list is filtered down to the valid provider codes; an unset (None)
or empty configuration defaults to every valid provider code. -/
def getAcceptedPaymentMethods (configured : Option (List String)) : List String :=
  if validPaymentMethods.isEmpty then []
  else
    match configured with
    | some cs =>
      if cs.isEmpty then validPaymentMethods
      else cs.filter (fun code => decide (code ∈ validPaymentMethods))
    | none => validPaymentMethods

/-- The provider choices computed for a checkout, with the fail-open flag. -/
structure PaymentChoices where
  allowed : List String
  restricted : List String
  usingDefault : Bool
deriving DecidableEq, Repr

/-- The running intersection built by CheckoutView._prepare_payment_choices:
start from every provider code and intersect with each cart farmer's accepted
list. -/
def allowedProviderCodes (farmerConfigs : List (Option (List String))) : List String :=
  farmerConfigs.foldl
    (fun acc cfg => acc.filter (fun code => decide (code ∈ getAcceptedPaymentMethods cfg)))
    validPaymentMethods

/-- CheckoutView._prepare_payment_choices from orders/views.py: when the
intersection is empty fall back to all providers and set the default flag;
otherwise offer the intersection and list the excluded codes. -/
def preparePaymentChoices (farmerConfigs : List (Option (List String))) : PaymentChoices :=
  let allowedCodes := allowedProviderCodes farmerConfigs
  if allowedCodes.isEmpty then
    { allowed := validPaymentMethods, restricted := [], usingDefault := true }
  else
    { allowed := allowedCodes,
      restricted := validPaymentMethods.filter (fun code => decide (code ∉ allowedCodes)),
      usingDefault := false }

/-- DeliveryScheduleForm.clean_payment_provider from orders/forms.py: a
submitted provider outside the allowed codes raises a ValidationError,
modelled as `none`. -/
def cleanPaymentProvider (allowedCodes : List String) (provider : String) : Option String :=
  if provider ∈ allowedCodes then some provider else none

/-- Every seller listed in the cart rules out each valid provider code. -/
def intersectionEmpty (farmerConfigs : List (Option (List String))) : Prop :=
  ∀ code ∈ validPaymentMethods,
    ∃ cfg ∈ farmerConfigs, code ∉ getAcceptedPaymentMethods cfg

theorem foldl_filter_eq_filter_all {α β : Type} (p : β → α → Bool)
    (configs : List β) (init : List α) :
    configs.foldl (fun acc cfg => acc.filter (p cfg)) init
      = init.filter (fun a => configs.all (fun cfg => p cfg a)) := by
  induction configs generalizing init with
  | nil => simp
  | cons c cs ih =>
    simp only [List.foldl_cons, List.all_cons]
    rw [ih, List.filter_filter]
    simp [Bool.and_comm]

theorem allowedProviderCodes_eq (farmerConfigs : List (Option (List String))) :
    allowedProviderCodes farmerConfigs
      = validPaymentMethods.filter
          (fun code => farmerConfigs.all
            (fun cfg => decide (code ∈ getAcceptedPaymentMethods cfg))) := by
  simpa [allowedProviderCodes] using foldl_filter_eq_filter_all
    (fun cfg code => decide (code ∈ getAcceptedPaymentMethods cfg))
    farmerConfigs validPaymentMethods

theorem mem_allowedProviderCodes (farmerConfigs : List (Option (List String)))
    (code : String) :
    code ∈ allowedProviderCodes farmerConfigs ↔
      code ∈ validPaymentMethods ∧
        ∀ cfg ∈ farmerConfigs, code ∈ getAcceptedPaymentMethods cfg := by
  rw [allowedProviderCodes_eq, List.mem_filter]
  simp [List.all_eq_true]

theorem allowedProviderCodes_isEmpty_iff (farmerConfigs : List (Option (List String))) :
    (allowedProviderCodes farmerConfigs).isEmpty = true ↔
      intersectionEmpty farmerConfigs := by
  rw [allowedProviderCodes_eq, List.isEmpty_iff, List.filter_eq_nil_iff]
  constructor
  · intro h code hcode
    have := h code hcode
    simp [List.all_eq_true] at this
    obtain ⟨cfg, hcfg, hnot⟩ := this
    exact ⟨cfg, hcfg, hnot⟩
  · intro h code hcode
    obtain ⟨cfg, hcfg, hnot⟩ := h code hcode
    simp [List.all_eq_true]
    exact ⟨cfg, hcfg, hnot⟩

/-- C2: the selectable checkout providers are the intersection across cart
sellers of the accepted-provider lists (unset or empty list meaning accept
all); an empty intersection falls back to all providers with the fallback
flag set; and validation rejects a provider outside the selectable set. -/
theorem c2_checkout_provider_choices (farmerConfigs : List (Option (List String)))
    (code provider : String) (configured : Option (List String)) :
    (¬ intersectionEmpty farmerConfigs →
      (code ∈ (preparePaymentChoices farmerConfigs).allowed ↔
        code ∈ validPaymentMethods ∧
          ∀ cfg ∈ farmerConfigs, code ∈ getAcceptedPaymentMethods cfg) ∧
      (preparePaymentChoices farmerConfigs).usingDefault = false) ∧
    (intersectionEmpty farmerConfigs →
      (preparePaymentChoices farmerConfigs).allowed = validPaymentMethods ∧
      (preparePaymentChoices farmerConfigs).usingDefault = true) ∧
    (configured = none ∨ configured = some [] →
      getAcceptedPaymentMethods configured = validPaymentMethods) ∧
    (cleanPaymentProvider (preparePaymentChoices farmerConfigs).allowed provider = none ↔
      provider ∉ (preparePaymentChoices farmerConfigs).allowed) := by
  refine ⟨?_, ?_, ?_, ?_⟩
  · intro hne
    have hempty : (allowedProviderCodes farmerConfigs).isEmpty = false := by
      rcases h : (allowedProviderCodes farmerConfigs).isEmpty with _ | _
      · rfl
      · exact absurd ((allowedProviderCodes_isEmpty_iff farmerConfigs).mp h) hne
    constructor
    · rw [preparePaymentChoices]
      simp only [hempty, Bool.false_eq_true, if_false]
      exact mem_allowedProviderCodes farmerConfigs code
    · rw [preparePaymentChoices]
      simp [hempty]
  · intro he
    have hempty : (allowedProviderCodes farmerConfigs).isEmpty = true :=
      (allowedProviderCodes_isEmpty_iff farmerConfigs).mpr he
    rw [preparePaymentChoices]
    simp [hempty]
  · rintro (h | h) <;> subst h <;> rfl
  · rw [cleanPaymentProvider]
    by_cases h : provider ∈ (preparePaymentChoices farmerConfigs).allowed <;> simp [h]

/-- Witness for C2: one farmer accepting only stripe and one unrestricted
farmer give the intersection with stripe selectable, cod excluded, and a
rejected paypal submission when paypal is outside the allowed set. -/
theorem c2_checkout_provider_choices_witness :
    ¬ intersectionEmpty [some ["stripe"], none] ∧
    ("stripe" ∈ (preparePaymentChoices [some ["stripe"], none]).allowed ↔
      "stripe" ∈ validPaymentMethods ∧
        ∀ cfg ∈ [some ["stripe"], none],
          "stripe" ∈ getAcceptedPaymentMethods cfg) ∧
    (preparePaymentChoices [some ["stripe"], none]).usingDefault = false ∧
    (getAcceptedPaymentMethods none = validPaymentMethods) ∧
    (cleanPaymentProvider (preparePaymentChoices [some ["stripe"], none]).allowed "paypal"
        = none ↔
      "paypal" ∉ (preparePaymentChoices [some ["stripe"], none]).allowed) := by
  have h := c2_checkout_provider_choices [some ["stripe"], none] "stripe" "paypal" none
  have hne : ¬ intersectionEmpty [some ["stripe"], none] := by
    intro hc
    obtain ⟨cfg, hcfg, hnot⟩ := hc "stripe" (by decide)
    simp only [List.mem_cons, List.mem_singleton, List.not_mem_nil, or_false] at hcfg
    rcases hcfg with h1 | h1 <;> (subst h1; revert hnot; decide)
  exact ⟨hne, (h.1 hne).1, (h.1 hne).2, h.2.2.1 (Or.inl rfl), h.2.2.2⟩

/-- C9: get_accepted_payment_methods always returns valid provider codes; a
configured list of only unrecognised codes yields the empty list, while an
unset or empty configuration yields every valid code. -/
theorem c9_accepted_methods_filtered (configured : Option (List String))
    (cs : List String) :
    (∀ code ∈ getAcceptedPaymentMethods configured, code ∈ validPaymentMethods) ∧
    (cs ≠ [] → (∀ c ∈ cs, c ∉ validPaymentMethods) →
      getAcceptedPaymentMethods (some cs) = []) ∧
    getAcceptedPaymentMethods none = validPaymentMethods ∧
    getAcceptedPaymentMethods (some []) = validPaymentMethods := by
  refine ⟨?_, ?_, rfl, rfl⟩
  · intro code hcode
    rcases configured with _ | cs'
    · exact hcode
    · rcases cs' with _ | ⟨c0, rest⟩
      · exact hcode
      · have hdef : getAcceptedPaymentMethods (some (c0 :: rest))
            = (c0 :: rest).filter (fun code => decide (code ∈ validPaymentMethods)) := rfl
        rw [hdef] at hcode
        exact of_decide_eq_true (List.mem_filter.mp hcode).2
  · intro hne hall
    rcases cs with _ | ⟨c0, rest⟩
    · exact absurd rfl hne
    · show (c0 :: rest).filter (fun code => decide (code ∈ validPaymentMethods)) = []
      exact List.filter_eq_nil_iff.mpr (fun c hc => by simpa using hall c hc)

/-- Witness for C9 with a configured list holding only unrecognised codes. -/
theorem c9_accepted_methods_filtered_witness :
    (∀ code ∈ getAcceptedPaymentMethods (some ["upi", "barter"]),
      code ∈ validPaymentMethods) ∧
    getAcceptedPaymentMethods (some ["upi", "barter"]) = [] ∧
    getAcceptedPaymentMethods none = validPaymentMethods :=
  have h := c9_accepted_methods_filtered (some ["upi", "barter"]) ["upi", "barter"]
  ⟨h.1, h.2.1 (by decide) (by decide), h.2.2.1⟩

/-- A user row projected to what payment dispatch needs (accounts/models.py
User.accepted_payment_methods). -/
structure UserRec where
  id : Nat
  acceptedPaymentMethods : Option (List String)
deriving DecidableEq, Repr

/-- The persistent store projected to the rows the workflow touches.  The
audit list is newest first, matching the AuditLog model ordering. -/
structure Sys where
  users : List UserRec
  products : List Product
  orders : List Order
  payments : List Payment
  deliveries : List Delivery
  audits : List AuditEntry
deriving DecidableEq, Repr

/-- Order row lookup by primary key. -/
def findOrder (s : Sys) (oid : Nat) : Option Order :=
  s.orders.find? (fun o => decide (o.id = oid))

/-- Payment row lookup by primary key. -/
def findPayment (s : Sys) (pid : Nat) : Option Payment :=
  s.payments.find? (fun p => decide (p.id = pid))

/-- Product row lookup by primary key. -/
def findProduct (s : Sys) (pid : Nat) : Option Product :=
  s.products.find? (fun p => decide (p.id = pid))

/-- User row lookup by primary key. -/
def findUser (s : Sys) (uid : Nat) : Option UserRec :=
  s.users.find? (fun u => decide (u.id = uid))

/-- instance.items.first().product.farmer when the order has items, else
None (orders/signals.py). -/
def firstItemFarmer (s : Sys) (o : Order) : Option Nat :=
  o.items.head?.bind (fun it => (findProduct s it.productId).map Product.farmerId)

/-- ensure_delivery_exists from orders/signals.py: the post_save receiver on
Order creates the one-to-one Delivery row once the order is pending or
confirmed, with get_or_create semantics. -/
def ensureDeliveryExists (s : Sys) (o : Order) : Sys :=
  if o.status = .pending ∨ o.status = .confirmed then
    if s.deliveries.any (fun d => decide (d.orderId = o.id)) then s
    else
      { s with deliveries := s.deliveries ++
          [{ orderId := o.id, status := .pending,
             assignedFarmer := firstItemFarmer s o }] }
  else s

/-- Persist an order row; Django fires the post_save signal on every save. -/
def saveOrder (s : Sys) (o : Order) : Sys :=
  ensureDeliveryExists { s with orders := updateBy Order.id s.orders o } o

/-- Persist a payment row. -/
def updatePayment (s : Sys) (p : Payment) : Sys :=
  { s with payments := updateBy Payment.id s.payments p }

/-- Payment.mark_successful from payments/models.py: store the transaction
id, flip status to success, persist the provider payload, then cascade
payment_status = paid onto the parent order. -/
def markSuccessful (s : Sys) (p : Payment) (txId : String) (payload : String) : Sys :=
  let p' := { p with transactionId := txId, status := PayStatus.success,
                     rawResponse := payload }
  let s1 := updatePayment s p'
  match findOrder s1 p.orderId with
  | some o => saveOrder s1 { o with paymentStatus := .paid }
  | none => s1

/-- An incoming webhook request after transport decoding: whether the body
decodes as UTF-8, the signature header, whether construct_event accepts the
payload and signature, and the parsed event fields. -/
structure WebhookRequest where
  bodyDecodes : Bool
  sigHeader : Option String
  sigValid : Bool
  paymentId : Option Nat
  objectId : Option String
  payload : String
deriving DecidableEq, Repr

/-- Python falsiness of the signature header: absent or empty. -/
def isBlankHeader : Option String → Bool
  | none => true
  | some t => t.isEmpty

/-- StripeWebhookView.post from payments/views.py: 400 on an undecodable
body, 403 without a configured secret, 400 on a missing signature header,
403 on an invalid signature, then mark the payment successful when a
correlation key locates one, answering 200 on every remaining path. -/
def stripeWebhookPost (secretConfigured : Bool) (req : WebhookRequest)
    (s : Sys) : Nat × Sys :=
  if req.bodyDecodes = false then (400, s)
  else if secretConfigured = false then (403, s)
  else if isBlankHeader req.sigHeader then (400, s)
  else if req.sigValid = false then (403, s)
  else
    match req.paymentId with
    | none => (200, s)
    | some pid =>
      if pid = 0 then (200, s)
      else
        match findPayment s pid with
        | none => (200, s)
        | some p => (200, markSuccessful s p (req.objectId.getD "") req.payload)

theorem updateBy_updateBy {α : Type} (key : α → Nat) (l : List α) (x : α) :
    updateBy key (updateBy key l x) x = updateBy key l x := by
  unfold updateBy
  rw [List.map_map]
  apply List.map_congr_left
  intro q _
  by_cases h : key q = key x
  · simp [h]
  · simp [h]

theorem ensureDeliveryExists_eq (t : Sys) (o : Order) :
    ensureDeliveryExists t o
      = { t with deliveries := (ensureDeliveryExists t o).deliveries } := by
  unfold ensureDeliveryExists
  by_cases h : o.status = .pending ∨ o.status = .confirmed
  · by_cases h2 : t.deliveries.any (fun d => decide (d.orderId = o.id)) = true
    · simp [h, h2]
    · simp [h, h2]
  · simp [h]

theorem ensureDeliveryExists_deliveries_any (t : Sys) (o : Order)
    (hst : o.status = .pending ∨ o.status = .confirmed) :
    (ensureDeliveryExists t o).deliveries.any
      (fun d => decide (d.orderId = o.id)) = true := by
  unfold ensureDeliveryExists
  by_cases h2 : t.deliveries.any (fun d => decide (d.orderId = o.id)) = true
  · simp [hst, h2]
  · simp [hst, h2]

theorem ensureDeliveryExists_eq_self (t : Sys) (o : Order)
    (h : o.status = .pending ∨ o.status = .confirmed →
      t.deliveries.any (fun d => decide (d.orderId = o.id)) = true) :
    ensureDeliveryExists t o = t := by
  unfold ensureDeliveryExists
  by_cases hst : o.status = .pending ∨ o.status = .confirmed
  · simp [hst, h hst]
  · simp [hst]

theorem markSuccessful_eq (s : Sys) (p : Payment) (T L : String) (o : Order)
    (ho : findOrder s p.orderId = some o) :
    markSuccessful s p T L
      = saveOrder (updatePayment s
          { p with transactionId := T, status := .success, rawResponse := L })
          { o with paymentStatus := .paid } := by
  have hfind : findOrder (updatePayment s
      { p with transactionId := T, status := .success, rawResponse := L })
      p.orderId = some o := ho
  simp only [markSuccessful]
  rw [hfind]

theorem markSuccessful_fields (s : Sys) (p : Payment) (T L : String) (o : Order)
    (ho : findOrder s p.orderId = some o) :
    (markSuccessful s p T L).payments
        = updateBy Payment.id s.payments
            { p with transactionId := T, status := .success, rawResponse := L } ∧
    (markSuccessful s p T L).orders
        = updateBy Order.id s.orders { o with paymentStatus := .paid } ∧
    (markSuccessful s p T L).audits = s.audits ∧
    (markSuccessful s p T L).products = s.products ∧
    (markSuccessful s p T L).users = s.users := by
  rw [markSuccessful_eq s p T L o ho, saveOrder, ensureDeliveryExists_eq]
  exact ⟨rfl, rfl, rfl, rfl, rfl⟩

theorem markSuccessful_deliveries_any (s : Sys) (p : Payment) (T L : String)
    (o : Order) (ho : findOrder s p.orderId = some o)
    (hst : o.status = .pending ∨ o.status = .confirmed) :
    (markSuccessful s p T L).deliveries.any
      (fun d => decide (d.orderId = o.id)) = true := by
  rw [markSuccessful_eq s p T L o ho, saveOrder]
  exact ensureDeliveryExists_deliveries_any _ { o with paymentStatus := .paid } hst

/-- A store with no rows, used for concrete webhook requests. -/
def sampleSys : Sys :=
  { users := [], products := [], orders := [], payments := [],
    deliveries := [], audits := [] }

/-- A webhook request carrying no signature header. -/
def reqMissingSig : WebhookRequest :=
  { bodyDecodes := true, sigHeader := none, sigValid := false,
    paymentId := some 1, objectId := some "evt_1", payload := "raw" }

/-- A webhook request carrying a signature that fails verification. -/
def reqBadSig : WebhookRequest :=
  { bodyDecodes := true, sigHeader := some "t=1,v1=bad", sigValid := false,
    paymentId := some 1, objectId := some "evt_1", payload := "raw" }

/-- A verified webhook request lacking the payment correlation key. -/
def reqNoKey : WebhookRequest :=
  { bodyDecodes := true, sigHeader := some "t=1,v1=ok", sigValid := true,
    paymentId := none, objectId := some "evt_1", payload := "raw" }

/-- C3 counterexample: a request with a missing signature header is answered
with HTTP 400, not a success status, refuting the claim that the handler
always responds success. -/
theorem c3_counterexample_missing_sig_is_400 :
    (stripeWebhookPost true reqMissingSig sampleSys).1 = 400 ∧
    ¬ (stripeWebhookPost true reqMissingSig sampleSys).1 = 200 ∧
    (stripeWebhookPost true reqBadSig sampleSys).1 = 403 :=
  ⟨rfl, by decide, rfl⟩

/-- C3 amended: with a configured secret and a decodable body, a missing
signature header is rejected with 400 and an invalid signature with 403,
both without any state change; a verified event without a payment
correlation key changes no state yet is answered 200. -/
theorem c3_webhook_signature_handling (req : WebhookRequest) (s : Sys)
    (hb : req.bodyDecodes = true) :
    (isBlankHeader req.sigHeader = true →
      stripeWebhookPost true req s = (400, s)) ∧
    (isBlankHeader req.sigHeader = false → req.sigValid = false →
      stripeWebhookPost true req s = (403, s)) ∧
    (isBlankHeader req.sigHeader = false → req.sigValid = true →
      req.paymentId = none → stripeWebhookPost true req s = (200, s)) := by
  refine ⟨?_, ?_, ?_⟩
  · intro h
    simp [stripeWebhookPost, hb, h]
  · intro h1 h2
    simp [stripeWebhookPost, hb, h1, h2]
  · intro h1 h2 h3
    simp [stripeWebhookPost, hb, h1, h2, h3]

/-- Witness for C3 (amended) on the three concrete requests. -/
theorem c3_webhook_signature_handling_witness :
    stripeWebhookPost true reqMissingSig sampleSys = (400, sampleSys) ∧
    stripeWebhookPost true reqBadSig sampleSys = (403, sampleSys) ∧
    stripeWebhookPost true reqNoKey sampleSys = (200, sampleSys) :=
  ⟨(c3_webhook_signature_handling reqMissingSig sampleSys rfl).1 rfl,
    (c3_webhook_signature_handling reqBadSig sampleSys rfl).2.1 rfl rfl,
    (c3_webhook_signature_handling reqNoKey sampleSys rfl).2.2 rfl rfl rfl⟩

/-- C6: applying the same verified success event a second time returns 200
and leaves the store exactly as after the first application; after the first
application the payment is success with the event's transaction id and
payload, the parent order is paid, and no audit entries are written. -/
theorem c6_success_event_idempotent (req : WebhookRequest) (s : Sys) (pid : Nat)
    (p : Payment) (o : Order)
    (hb : req.bodyDecodes = true) (hsh : isBlankHeader req.sigHeader = false)
    (hsv : req.sigValid = true) (hpid : req.paymentId = some pid)
    (hnz : ¬ pid = 0) (hp : findPayment s pid = some p)
    (ho : findOrder s p.orderId = some o) :
    stripeWebhookPost true req ((stripeWebhookPost true req s).2)
        = (200, (stripeWebhookPost true req s).2) ∧
    (∃ p1, findPayment (stripeWebhookPost true req s).2 pid = some p1 ∧
        p1.status = PayStatus.success ∧
        p1.transactionId = req.objectId.getD "" ∧
        p1.rawResponse = req.payload) ∧
    (∃ o1, findOrder (stripeWebhookPost true req s).2 p.orderId = some o1 ∧
        o1.paymentStatus = PaymentStatus.paid) ∧
    (stripeWebhookPost true req s).2.audits = s.audits := by
  have hrun : stripeWebhookPost true req s
      = (200, markSuccessful s p (req.objectId.getD "") req.payload) := by
    simp [stripeWebhookPost, hb, hsh, hsv, hpid, hnz, hp]
  have hsnd : (stripeWebhookPost true req s).2
      = markSuccessful s p (req.objectId.getD "") req.payload := by
    rw [hrun]
  have hfields := markSuccessful_fields s p (req.objectId.getD "") req.payload o ho
  have hfp1 : findPayment (markSuccessful s p (req.objectId.getD "") req.payload) pid
      = some { p with transactionId := req.objectId.getD "",
                      status := .success, rawResponse := req.payload } := by
    rw [findPayment, hfields.1,
      find?_updateBy Payment.id s.payments
        { p with transactionId := req.objectId.getD "",
                 status := .success, rawResponse := req.payload } pid]
    rw [findPayment] at hp
    rw [hp]
    simp
  have hfo1 : findOrder (markSuccessful s p (req.objectId.getD "") req.payload)
      p.orderId = some { o with paymentStatus := .paid } := by
    rw [findOrder, hfields.2.1,
      find?_updateBy Order.id s.orders { o with paymentStatus := .paid } p.orderId]
    rw [findOrder] at ho
    rw [ho]
    simp
  have hrun2 : stripeWebhookPost true req
        (markSuccessful s p (req.objectId.getD "") req.payload)
      = (200, markSuccessful (markSuccessful s p (req.objectId.getD "") req.payload)
          { p with transactionId := req.objectId.getD "",
                   status := .success, rawResponse := req.payload }
          (req.objectId.getD "") req.payload) := by
    simp [stripeWebhookPost, hb, hsh, hsv, hpid, hnz, hfp1]
  have hidem : markSuccessful (markSuccessful s p (req.objectId.getD "") req.payload)
        { p with transactionId := req.objectId.getD "",
                 status := .success, rawResponse := req.payload }
        (req.objectId.getD "") req.payload
      = markSuccessful s p (req.objectId.getD "") req.payload := by
    have heq := markSuccessful_eq
      (markSuccessful s p (req.objectId.getD "") req.payload)
      { p with transactionId := req.objectId.getD "",
               status := .success, rawResponse := req.payload }
      (req.objectId.getD "") req.payload { o with paymentStatus := .paid } hfo1
    rw [heq]
    have hup : updatePayment (markSuccessful s p (req.objectId.getD "") req.payload)
        { p with transactionId := req.objectId.getD "",
                 status := .success, rawResponse := req.payload }
        = markSuccessful s p (req.objectId.getD "") req.payload := by
      rw [updatePayment, hfields.1, updateBy_updateBy, ← hfields.1]
    rw [hup]
    show saveOrder (markSuccessful s p (req.objectId.getD "") req.payload)
        { o with paymentStatus := .paid }
      = markSuccessful s p (req.objectId.getD "") req.payload
    rw [saveOrder, hfields.2.1, updateBy_updateBy, ← hfields.2.1]
    apply ensureDeliveryExists_eq_self
    intro hst
    exact markSuccessful_deliveries_any s p (req.objectId.getD "") req.payload o ho hst
  refine ⟨?_, ?_, ?_, ?_⟩
  · rw [hsnd, hrun2, hidem]
  · exact ⟨_, by rw [hsnd]; exact hfp1, rfl, rfl, rfl⟩
  · exact ⟨_, by rw [hsnd]; exact hfo1, rfl⟩
  · rw [hsnd]
    exact hfields.2.2.1

/-- A stripe payment in initiated state for the sample pending order. -/
def samplePayment : Payment :=
  { id := 5, orderId := 9, provider := "stripe", status := .initiated,
    amount := 3000, currency := "INR", transactionId := "", rawResponse := "" }

/-- A pending, unpaid order with one line item. -/
def samplePendingOrder : Order :=
  { id := 9, customerId := 7, status := .pending, paymentStatus := .unpaid,
    totalAmount := 3000, deliveryAddress := "addr", scheduledDate := some 1,
    scheduledWindow := "morning", notes := "", items := [⟨3, 2, 1500, 3000⟩] }

/-- A store holding the sample pending order and its initiated payment. -/
def sampleSysPay : Sys :=
  { users := [], products := [sampleProduct], orders := [samplePendingOrder],
    payments := [samplePayment], deliveries := [], audits := [] }

/-- A verified webhook success event for the sample payment. -/
def sampleSuccessReq : WebhookRequest :=
  { bodyDecodes := true, sigHeader := some "t=1,v1=ok", sigValid := true,
    paymentId := some 5, objectId := some "pi_123", payload := "payload" }

/-- Witness for C6 at the sample store and success event. -/
theorem c6_success_event_idempotent_witness :
    stripeWebhookPost true sampleSuccessReq
        ((stripeWebhookPost true sampleSuccessReq sampleSysPay).2)
      = (200, (stripeWebhookPost true sampleSuccessReq sampleSysPay).2) ∧
    (stripeWebhookPost true sampleSuccessReq sampleSysPay).2.audits
      = sampleSysPay.audits :=
  have h := c6_success_event_idempotent sampleSuccessReq sampleSysPay 5
    samplePayment samplePendingOrder rfl rfl rfl rfl (by decide) rfl rfl
  ⟨h.1, h.2.2.2⟩

/-- Outcome of OrderCancelView.post (orders/views.py): the order was outside
the view's queryset, already delivered or cancelled, blocked because it is
shipped, or cancelled now. -/
inductive CancelOutcome where
  | notFound
  | alreadyClosed
  | shippedBlocked
  | cancelled
deriving DecidableEq, Repr

/-- The audit entry recorded by a successful customer cancellation. -/
def cancelAuditEntry (userId : Nat) (o : Order) : AuditEntry :=
  { userId := some userId, action := "Order cancelled by customer",
    objectId := toString o.id,
    metadata := [("previous_status", statusCode o.status),
                 ("new_status", statusCode OrderStatus.cancelled),
                 ("total_amount", toString o.totalAmount)] }

/-- OrderCancelView.post from orders/views.py: cart orders are outside the
queryset; delivered or cancelled orders are a no-op; shipped orders are
blocked with the support message; otherwise the status becomes cancelled and
one audit entry records the previous status, new status and total amount. -/
def orderCancelPost (s : Sys) (userId : Nat) (o : Order) : Sys × CancelOutcome :=
  if o.status = .cart then (s, .notFound)
  else if o.status = .delivered ∨ o.status = .cancelled then (s, .alreadyClosed)
  else if o.status = .shipped then (s, .shippedBlocked)
  else
    let s1 := saveOrder s { o with status := OrderStatus.cancelled }
    ({ s1 with audits := cancelAuditEntry userId o :: s1.audits }, .cancelled)

theorem saveOrder_fields (s : Sys) (o : Order) :
    (saveOrder s o).orders = updateBy Order.id s.orders o ∧
    (saveOrder s o).audits = s.audits ∧
    (saveOrder s o).payments = s.payments ∧
    (saveOrder s o).products = s.products ∧
    (saveOrder s o).users = s.users := by
  rw [saveOrder, ensureDeliveryExists_eq]
  exact ⟨rfl, rfl, rfl, rfl, rfl⟩

theorem findOrder_saveOrder (s : Sys) (x : Order) (oid : Nat) :
    findOrder (saveOrder s x) oid
      = (findOrder s oid).map (fun q => if q.id = x.id then x else q) := by
  rw [findOrder, (saveOrder_fields s x).1, find?_updateBy Order.id s.orders x oid]
  rfl

theorem findOrder_saveOrder_cases (s : Sys) (x : Order) (oid : Nat) (o : Order)
    (ho : findOrder s oid = some o) :
    findOrder (saveOrder s x) oid = some (if o.id = x.id then x else o) := by
  rw [findOrder_saveOrder]
  rw [findOrder] at ho
  rw [findOrder, ho]
  rfl

/-- C7: a pending or confirmed order is cancelled with exactly one audit
entry recording the previous status, the new status and the total amount; a
shipped order is left unchanged with the distinct support-required outcome;
a delivered or already-cancelled order is a no-op. -/
theorem c7_order_cancel (s : Sys) (u : Nat) (o : Order)
    (ho : findOrder s o.id = some o) :
    (o.status = .pending ∨ o.status = .confirmed →
      (orderCancelPost s u o).2 = .cancelled ∧
      findOrder (orderCancelPost s u o).1 o.id
        = some { o with status := OrderStatus.cancelled } ∧
      (orderCancelPost s u o).1.audits = cancelAuditEntry u o :: s.audits) ∧
    (o.status = .shipped → orderCancelPost s u o = (s, .shippedBlocked)) ∧
    (o.status = .delivered ∨ o.status = .cancelled →
      orderCancelPost s u o = (s, .alreadyClosed)) := by
  refine ⟨?_, ?_, ?_⟩
  · intro hst
    have h1 : ¬ o.status = .cart := by rcases hst with h | h <;> simp [h]
    have h2 : ¬ (o.status = .delivered ∨ o.status = .cancelled) := by
      rcases hst with h | h <;> simp [h]
    have h3 : ¬ o.status = .shipped := by rcases hst with h | h <;> simp [h]
    refine ⟨?_, ?_, ?_⟩
    · simp [orderCancelPost, h1, h2, h3]
    · simp only [orderCancelPost, h1, h2, h3, if_false]
      have := findOrder_saveOrder_cases s { o with status := OrderStatus.cancelled } o.id o ho
      simpa using this
    · simp only [orderCancelPost, h1, h2, h3, if_false]
      simp [(saveOrder_fields s { o with status := OrderStatus.cancelled }).2.1]
  · intro hst
    have h1 : ¬ o.status = .cart := by simp [hst]
    have h2 : ¬ (o.status = .delivered ∨ o.status = .cancelled) := by simp [hst]
    simp [orderCancelPost, h1, h2, hst]
  · intro hst
    have h1 : ¬ o.status = .cart := by rcases hst with h | h <;> simp [h]
    simp [orderCancelPost, h1, hst]

/-- Witness for C7 on the sample pending order and on shipped and delivered
variants of it. -/
theorem c7_order_cancel_witness :
    (orderCancelPost sampleSysPay 7 samplePendingOrder).2 = .cancelled ∧
    findOrder (orderCancelPost sampleSysPay 7 samplePendingOrder).1 9
      = some { samplePendingOrder with status := OrderStatus.cancelled } ∧
    (orderCancelPost sampleSysPay 7 samplePendingOrder).1.audits
      = cancelAuditEntry 7 samplePendingOrder :: sampleSysPay.audits :=
  have h := (c7_order_cancel sampleSysPay 7 samplePendingOrder rfl).1
    (Or.inl rfl)
  ⟨h.1, h.2.1, h.2.2⟩

/-- The accepted-payment configurations of the distinct farmers whose
products appear among an order's line items (orders/views.py iterates the
set of item.product.farmer objects). -/
def orderFarmerConfigs (s : Sys) (o : Order) : List (Option (List String)) :=
  ((o.items.filterMap
      (fun it => (findProduct s it.productId).map Product.farmerId)).dedup).filterMap
    (fun fid => (findUser s fid).map UserRec.acceptedPaymentMethods)

/-- The DeliveryScheduleForm fields submitted at checkout. -/
structure CheckoutForm where
  deliveryAddress : String
  scheduledDate : Option Nat
  scheduledWindow : String
  notes : String
  paymentProvider : String
deriving DecidableEq, Repr

/-- Where CheckoutView sends the customer afterwards. -/
inductive CheckoutResult where
  | emptyCartRedirect
  | invalidProvider
  | codConfirmed
  | gatewayRedirect
deriving DecidableEq, Repr

/-- Fresh primary key for a created payment row. -/
def freshPaymentId (s : Sys) : Nat :=
  s.payments.foldl (fun m p => max m p.id) 0 + 1

/-- CheckoutView from orders/views.py: dispatch redirects away from an empty
cart; form validation rejects a provider outside the allowed choices;
otherwise the delivery fields are persisted, status moves cart→pending, an
audit entry is written and a Payment row is created; cash on delivery then
confirms the order immediately with a second audit entry, while a gateway
provider redirects to the hosted payment page. -/
def checkoutPost (s : Sys) (userId : Nat) (cart : Order) (form : CheckoutForm) :
    Sys × CheckoutResult :=
  if cart.items.isEmpty then (s, .emptyCartRedirect)
  else
    let choices := preparePaymentChoices (orderFarmerConfigs s cart)
    match cleanPaymentProvider choices.allowed form.paymentProvider with
    | none => (s, .invalidProvider)
    | some provider =>
      let o1 := { cart with
        deliveryAddress := form.deliveryAddress,
        scheduledDate := form.scheduledDate,
        scheduledWindow := form.scheduledWindow,
        notes := form.notes,
        status := OrderStatus.pending }
      let s1 := saveOrder s o1
      let s2 := { s1 with audits :=
        { userId := some userId, action := "Checkout completed",
          objectId := toString cart.id,
          metadata := [("total_amount", toString cart.totalAmount),
                       ("payment_provider", provider)] } :: s1.audits }
      let payment : Payment :=
        { id := freshPaymentId s, orderId := cart.id, provider := provider,
          status := .initiated, amount := cart.totalAmount, currency := "INR",
          transactionId := "", rawResponse := "" }
      let s3 := { s2 with payments := s2.payments ++ [payment] }
      if provider = "cod" then
        let o2 := if o1.status = .pending then { o1 with status := .confirmed } else o1
        let o3 := if ¬ o2.paymentStatus = .unpaid
          then { o2 with paymentStatus := .unpaid } else o2
        let s4 := if o1.status = .pending ∨ ¬ o1.paymentStatus = .unpaid
          then saveOrder s3 o3 else s3
        ({ s4 with audits :=
            { userId := some userId, action := "Cash on delivery selected",
              objectId := toString cart.id,
              metadata := [("payment_id", toString payment.id)] } :: s4.audits },
          .codConfirmed)
      else
        (s3, .gatewayRedirect)

/-- C8: a checkout request over a cart without line items redirects away and
changes nothing: the whole store, orders, payments and deliveries included,
is returned untouched. -/
theorem c8_empty_cart_checkout (s : Sys) (u : Nat) (cart : Order)
    (form : CheckoutForm) (he : cart.items.isEmpty = true) :
    checkoutPost s u cart form = (s, .emptyCartRedirect) := by
  simp [checkoutPost, he]

/-- A filled delivery schedule form selecting cash on delivery. -/
def sampleForm : CheckoutForm :=
  { deliveryAddress := "addr", scheduledDate := some 1,
    scheduledWindow := "morning", notes := "", paymentProvider := "cod" }

/-- Witness for C8 on a concrete empty cart. -/
theorem c8_empty_cart_checkout_witness :
    checkoutPost sampleSysPay 7 sampleOrder sampleForm
      = (sampleSysPay, .emptyCartRedirect) :=
  c8_empty_cart_checkout sampleSysPay 7 sampleOrder sampleForm rfl

/-- Database string code of an order payment status. -/
def paymentStatusCode : PaymentStatus → String
  | .unpaid => "unpaid"
  | .paid => "paid"
  | .refunded => "refunded"
  | .failed => "failed"

/-- The AdminOrderUpdateForm fields (orders/forms.py): status,
payment_status, delivery address, scheduled date and window, notes. -/
structure AdminOrderForm where
  status : OrderStatus
  paymentStatus : PaymentStatus
  deliveryAddress : String
  scheduledDate : Option Nat
  scheduledWindow : String
  notes : String
deriving DecidableEq, Repr

/-- AdminOrderUpdateView from orders/views.py: the queryset excludes cart
orders; a valid submission persists every form field, including
payment_status, and records an audit entry. -/
def adminOrderUpdate (s : Sys) (userId oid : Nat) (f : AdminOrderForm) : Sys :=
  match findOrder s oid with
  | none => s
  | some o =>
    if o.status = .cart then s
    else
      let o' := { o with status := f.status, paymentStatus := f.paymentStatus,
                         deliveryAddress := f.deliveryAddress,
                         scheduledDate := f.scheduledDate,
                         scheduledWindow := f.scheduledWindow,
                         notes := f.notes }
      let s1 := saveOrder s o'
      { s1 with audits :=
          { userId := some userId, action := "Order status updated",
            objectId := toString oid,
            metadata := [("status", statusCode f.status),
                         ("payment_status", paymentStatusCode f.paymentStatus)] }
            :: s1.audits }

/-- Fresh primary key for a created order row. -/
def freshOrderId (s : Sys) : Nat :=
  s.orders.foldl (fun m o => max m o.id) 0 + 1

/-- The empty cart order created by _get_or_create_cart. -/
def newCartOrder (s : Sys) (userId : Nat) : Order :=
  { id := freshOrderId s, customerId := userId, status := .cart,
    paymentStatus := .unpaid, totalAmount := 0, deliveryAddress := "",
    scheduledDate := none, scheduledWindow := "", notes := "", items := [] }

/-- _get_or_create_cart from orders/views.py: reuse the session cart when it
still exists, belongs to the customer and is in cart status; otherwise
create a fresh empty cart order. -/
def getOrCreateCart (s : Sys) (userId : Nat) (sessionCartId : Option Nat) :
    Order × Sys :=
  match sessionCartId with
  | some cid =>
    match findOrder s cid with
    | some o =>
      if o.customerId = userId ∧ o.status = .cart then (o, s)
      else (newCartOrder s userId,
        { s with orders := s.orders ++ [newCartOrder s userId] })
    | none => (newCartOrder s userId,
        { s with orders := s.orders ++ [newCartOrder s userId] })
  | none => (newCartOrder s userId,
      { s with orders := s.orders ++ [newCartOrder s userId] })

/-- add_to_cart at the store level: resolve the product and the cart, then
persist the upserted line item exactly when units were added. -/
def addToCartSys (s : Sys) (userId : Nat) (sessionCartId : Option Nat)
    (productId : Nat) (raw : Option Int) : Sys :=
  match findProduct s productId with
  | none => s
  | some p =>
    if p.available = false then s
    else
      match getOrCreateCart s userId sessionCartId with
      | (cart, s0) =>
        match addToCart p cart raw with
        | (cart', AddOutcome.added _ _) => saveOrder s0 cart'
        | (_, _) => s0

/-- CheckoutView at the store level: resolve the cart, then run the post. -/
def checkoutOp (s : Sys) (userId : Nat) (sessionCartId : Option Nat)
    (form : CheckoutForm) : Sys :=
  match getOrCreateCart s userId sessionCartId with
  | (cart, s0) => (checkoutPost s0 userId cart form).1

/-- OrderCancelView at the store level: ownership is enforced by the mixin
before the post handler runs. -/
def cancelOp (s : Sys) (userId oid : Nat) : Sys :=
  match findOrder s oid with
  | none => s
  | some o => if o.customerId = userId then (orderCancelPost s userId o).1 else s

/-- PaymentInitView from payments/views.py: only a pending or confirmed
order owned by the customer and not already paid may start a payment; a
provider outside the per-farmer allowed choices is rejected; cash on
delivery confirms the order immediately, a gateway only creates the
initiated payment row before redirecting. -/
def paymentInitPost (s : Sys) (userId oid : Nat) (provider : String) : Sys :=
  match findOrder s oid with
  | none => s
  | some o =>
    if ¬ (o.customerId = userId ∧ (o.status = .pending ∨ o.status = .confirmed)) then s
    else if o.paymentStatus = .paid then s
    else
      let choices := preparePaymentChoices (orderFarmerConfigs s o)
      match cleanPaymentProvider choices.allowed provider with
      | none => s
      | some prov =>
        let payment : Payment :=
          { id := freshPaymentId s, orderId := o.id, provider := prov,
            status := .initiated, amount := o.totalAmount, currency := "INR",
            transactionId := "", rawResponse := "" }
        let s1 := { s with payments := s.payments ++ [payment] }
        if prov = "cod" then
          let o2 := if o.status = .pending then { o with status := .confirmed } else o
          let o3 := if ¬ o2.paymentStatus = .unpaid
            then { o2 with paymentStatus := .unpaid } else o2
          let s2 := if o.status = .pending ∨ ¬ o.paymentStatus = .unpaid
            then saveOrder s1 o3 else s1
          { s2 with audits :=
              { userId := some userId, action := "Cash on delivery selected",
                objectId := toString o.id,
                metadata := [("payment_id", toString payment.id)] } :: s2.audits }
        else s1

/-- FarmerDeliveryUpdateView from deliveries/views.py: the assigned farmer
updates the delivery row's status and driver details; orders are untouched. -/
def deliveryUpdate (s : Sys) (oid : Nat) (newStatus : DeliveryStatus)
    (driver : Option Nat) : Sys :=
  { s with deliveries := s.deliveries.map
             (fun d => if d.orderId = oid
               then { d with status := newStatus, assignedFarmer := driver }
               else d) }

/-- The state-changing operations reachable through the public interface of
the modelled workflow. -/
inductive Op where
  | addItem (userId : Nat) (sessionCartId : Option Nat) (productId : Nat)
      (raw : Option Int)
  | checkout (userId : Nat) (sessionCartId : Option Nat) (form : CheckoutForm)
  | cancelOrder (userId oid : Nat)
  | adminUpdate (userId oid : Nat) (form : AdminOrderForm)
  | paymentInit (userId oid : Nat) (provider : String)
  | webhook (secretConfigured : Bool) (req : WebhookRequest)
  | deliveryProgress (oid : Nat) (status : DeliveryStatus) (driver : Option Nat)
deriving DecidableEq, Repr

/-- One step of the system under a public operation. -/
def runOp : Op → Sys → Sys
  | .addItem u c pid raw, s => addToCartSys s u c pid raw
  | .checkout u c form, s => checkoutOp s u c form
  | .cancelOrder u oid, s => cancelOp s u oid
  | .adminUpdate u oid f, s => adminOrderUpdate s u oid f
  | .paymentInit u oid prov, s => paymentInitPost s u oid prov
  | .webhook sec req, s => (stripeWebhookPost sec req s).2
  | .deliveryProgress oid st driver, s => deliveryUpdate s oid st driver

theorem findOrder_set_audits (s : Sys) (a : List AuditEntry) (oid : Nat) :
    findOrder { s with audits := a } oid = findOrder s oid := rfl

theorem findOrder_set_payments (s : Sys) (ps : List Payment) (oid : Nat) :
    findOrder { s with payments := ps } oid = findOrder s oid := rfl

theorem paid_of_some_inj {o o' : Order}
    (h : (some o : Option Order) = some o')
    (hpaid : o'.paymentStatus = .paid) : o.paymentStatus = .paid := by
  cases h
  exact hpaid

theorem findOrder_append_of_found (s : Sys) (x : Order) (oid : Nat) (o : Order)
    (ho : findOrder s oid = some o) :
    findOrder { s with orders := s.orders ++ [x] } oid = some o := by
  show (s.orders ++ [x]).find? (fun q => decide (q.id = oid)) = some o
  rw [List.find?_append]
  rw [findOrder] at ho
  rw [ho]
  rfl

theorem addToCart_fst_preserved (p : Product) (cart : Order) (raw : Option Int) :
    (addToCart p cart raw).1.id = cart.id ∧
    (addToCart p cart raw).1.paymentStatus = cart.paymentStatus := by
  unfold addToCart
  by_cases h0 : p.inventory ≤ 0
  · simp [h0]
  · by_cases hmax : p.inventory - currentQuantity cart p.id ≤ 0
    · simp [h0, hmax]
    · simp [h0, hmax, Order.saveItem, Order.recalculateTotal]

theorem getOrCreateCart_cases (s : Sys) (u : Nat) (c : Option Nat)
    (cart : Order) (s0 : Sys) (hg : getOrCreateCart s u c = (cart, s0)) :
    (findOrder s cart.id = some cart ∧ s0 = s) ∨
    (cart = newCartOrder s u ∧
      s0 = { s with orders := s.orders ++ [newCartOrder s u] }) := by
  rcases c with _ | cid
  · rw [getOrCreateCart] at hg
    cases hg
    right
    exact ⟨rfl, rfl⟩
  · rcases hf : findOrder s cid with _ | o₀
    · rw [getOrCreateCart, hf] at hg
      cases hg
      right
      exact ⟨rfl, rfl⟩
    · simp only [getOrCreateCart, hf] at hg
      by_cases hcond : o₀.customerId = u ∧ o₀.status = .cart
      · rw [if_pos hcond] at hg
        cases hg
        left
        have hid : cart.id = cid := by simpa using List.find?_some hf
        rw [hid]
        exact ⟨hf, rfl⟩
      · rw [if_neg hcond] at hg
        cases hg
        right
        exact ⟨rfl, rfl⟩

theorem paid_addToCartSys (s : Sys) (u : Nat) (c : Option Nat) (pid : Nat)
    (raw : Option Int) (oid : Nat) (o o' : Order)
    (ho : findOrder s oid = some o)
    (ho' : findOrder (addToCartSys s u c pid raw) oid = some o')
    (hpaid : o'.paymentStatus = .paid) : o.paymentStatus = .paid := by
  have hoid : o.id = oid := by simpa using List.find?_some ho
  rcases hfp : findProduct s pid with _ | p
  · simp only [addToCartSys, hfp] at ho'
    exact paid_of_some_inj (ho.symm.trans ho') hpaid
  · simp only [addToCartSys, hfp] at ho'
    by_cases hav : p.available = false
    · rw [if_pos hav] at ho'
      exact paid_of_some_inj (ho.symm.trans ho') hpaid
    · rw [if_neg hav] at ho'
      rcases hg : getOrCreateCart s u c with ⟨cart, s0⟩
      simp only [hg] at ho'
      have hs0 : findOrder s0 oid = some o := by
        rcases getOrCreateCart_cases s u c cart s0 hg with ⟨_, rfl⟩ | ⟨_, rfl⟩
        · exact ho
        · exact findOrder_append_of_found s (newCartOrder s u) oid o ho
      rcases ha : addToCart p cart raw with ⟨cart', outc⟩
      have hpres := addToCart_fst_preserved p cart raw
      rw [ha] at hpres
      cases outc with
      | added n b =>
        simp only [ha] at ho'
        rw [findOrder_saveOrder_cases s0 cart' oid o hs0] at ho'
        by_cases hid : o.id = cart'.id
        · rw [if_pos hid] at ho'
          have hc' : cart' = o' := Option.some.inj ho'
          have hcartPaid : cart.paymentStatus = .paid := by
            rw [← hpres.2, hc']
            exact hpaid
          rcases getOrCreateCart_cases s u c cart s0 hg with ⟨hfc, _⟩ | ⟨hnew, _⟩
          · have hcid : cart.id = oid := by
              rw [← hpres.1, ← hid, hoid]
            rw [hcid] at hfc
            have : o = cart := by
              rw [ho] at hfc
              exact Option.some.inj hfc
            rw [this]
            exact hcartPaid
          · exfalso
            rw [hnew] at hcartPaid
            simp [newCartOrder] at hcartPaid
        · rw [if_neg hid] at ho'
          exact paid_of_some_inj ho' hpaid
      | outOfStock =>
        simp only [ha] at ho'
        exact paid_of_some_inj (hs0.symm.trans ho') hpaid
      | alreadyMax =>
        simp only [ha] at ho'
        exact paid_of_some_inj (hs0.symm.trans ho') hpaid

theorem saveOrder_orders (s : Sys) (o : Order) :
    (saveOrder s o).orders = updateBy Order.id s.orders o :=
  (saveOrder_fields s o).1

theorem findOrder_eq_find? (s : Sys) (oid : Nat) :
    findOrder s oid = s.orders.find? (fun q => decide (q.id = oid)) := rfl

theorem paid_checkoutPost (s : Sys) (u : Nat) (cart : Order) (form : CheckoutForm)
    (oid : Nat) (o o' : Order)
    (ho : findOrder s oid = some o)
    (ho' : findOrder (checkoutPost s u cart form).1 oid = some o')
    (hpaid : o'.paymentStatus = .paid) :
    o.paymentStatus = .paid ∨ (cart.paymentStatus = .paid ∧ cart.id = oid) := by
  have hoid : o.id = oid := by simpa using List.find?_some ho
  by_cases he : cart.items.isEmpty = true
  · left
    simp only [checkoutPost, he, if_true] at ho'
    exact paid_of_some_inj (ho.symm.trans ho') hpaid
  · rcases hc : cleanPaymentProvider
        (preparePaymentChoices (orderFarmerConfigs s cart)).allowed
        form.paymentProvider with _ | prov
    · left
      simp only [checkoutPost, he, hc, Bool.false_eq_true, if_false] at ho'
      exact paid_of_some_inj (ho.symm.trans ho') hpaid
    · rw [findOrder_eq_find?] at ho
      by_cases hcod : prov = "cod"
      · simp [checkoutPost, he, hc, hcod, saveOrder_orders, findOrder_eq_find?] at ho'
        rw [find?_updateBy, find?_updateBy, ho] at ho'
        simp at ho'
        by_cases hps : cart.paymentStatus = PaymentStatus.unpaid
        · simp only [hps, if_pos rfl] at ho'
          by_cases hid : o.id = cart.id
          · simp [hid] at ho'
            rw [← ho'] at hpaid
            simp at hpaid
          · simp [hid] at ho'
            left
            rw [ho']
            exact hpaid
        · simp only [hps, if_neg hps] at ho'
          by_cases hid : o.id = cart.id
          · simp [hid] at ho'
            rw [← ho'] at hpaid
            simp at hpaid
          · simp [hid] at ho'
            left
            rw [ho']
            exact hpaid
      · simp [checkoutPost, he, hc, hcod, saveOrder_orders, findOrder_eq_find?] at ho'
        rw [find?_updateBy, ho] at ho'
        simp at ho'
        by_cases hid : o.id = cart.id
        · simp [hid] at ho'
          right
          constructor
          · rw [← ho'] at hpaid
            simpa using hpaid
          · rw [← hid, hoid]
        · simp [hid] at ho'
          left
          rw [ho']
          exact hpaid

theorem eq_after_saveOrder_unpaid (t : Sys) (x : Order) (oid : Nat) (o o' : Order)
    (hx : x.paymentStatus = .unpaid) (ht : findOrder t oid = some o)
    (ho' : findOrder (saveOrder t x) oid = some o')
    (hpaid : o'.paymentStatus = .paid) : o = o' := by
  rw [findOrder_saveOrder_cases t x oid o ht] at ho'
  by_cases hid : o.id = x.id
  · rw [if_pos hid] at ho'
    exfalso
    rw [← Option.some.inj ho'] at hpaid
    rw [hx] at hpaid
    cases hpaid
  · rw [if_neg hid] at ho'
    exact Option.some.inj ho'

theorem ite_paymentStatus_unpaid (x : Order) :
    (if ¬ x.paymentStatus = .unpaid
      then { x with paymentStatus := .unpaid } else x).paymentStatus = .unpaid := by
  by_cases h : x.paymentStatus = .unpaid
  · simp [h]
  · simp [h]

theorem paid_checkoutOp (s : Sys) (u : Nat) (c : Option Nat) (form : CheckoutForm)
    (oid : Nat) (o o' : Order)
    (ho : findOrder s oid = some o)
    (ho' : findOrder (checkoutOp s u c form) oid = some o')
    (hpaid : o'.paymentStatus = .paid) : o.paymentStatus = .paid := by
  rcases hg : getOrCreateCart s u c with ⟨cart, s0⟩
  simp only [checkoutOp, hg] at ho'
  rcases getOrCreateCart_cases s u c cart s0 hg with ⟨hfc, hs0⟩ | ⟨hnew, hs0⟩
  · rw [hs0] at ho'
    rcases paid_checkoutPost s u cart form oid o o' ho ho' hpaid with h | ⟨hcp, hcid⟩
    · exact h
    · rw [hcid] at hfc
      rw [ho] at hfc
      rw [Option.some.inj hfc]
      exact hcp
  · rw [hs0] at ho'
    have hfound : findOrder { s with orders := s.orders ++ [newCartOrder s u] } oid
        = some o := findOrder_append_of_found s (newCartOrder s u) oid o ho
    rcases paid_checkoutPost _ u cart form oid o o' hfound ho' hpaid with h | ⟨hcp, _⟩
    · exact h
    · exfalso
      rw [hnew] at hcp
      simp [newCartOrder] at hcp

theorem paid_cancelOp (s : Sys) (u j oid : Nat) (o o' : Order)
    (ho : findOrder s oid = some o)
    (ho' : findOrder (cancelOp s u j) oid = some o')
    (hpaid : o'.paymentStatus = .paid) : o.paymentStatus = .paid := by
  have hoid : o.id = oid := by simpa using List.find?_some ho
  rcases hf : findOrder s j with _ | oc
  · simp only [cancelOp, hf] at ho'
    exact paid_of_some_inj (ho.symm.trans ho') hpaid
  · simp only [cancelOp, hf] at ho'
    by_cases hown : oc.customerId = u
    · rw [if_pos hown] at ho'
      by_cases h1 : oc.status = .cart
      · simp only [orderCancelPost, h1, if_true] at ho'
        exact paid_of_some_inj (ho.symm.trans ho') hpaid
      · by_cases h2 : oc.status = .delivered ∨ oc.status = .cancelled
        · simp only [orderCancelPost, h1, h2, if_true, if_false] at ho'
          exact paid_of_some_inj (ho.symm.trans ho') hpaid
        · by_cases h3 : oc.status = .shipped
          · simp only [orderCancelPost, h1, h2, h3, if_true, if_false] at ho'
            exact paid_of_some_inj (ho.symm.trans ho') hpaid
          · simp only [orderCancelPost, h1, h2, h3, if_false] at ho'
            rw [findOrder_set_audits,
              findOrder_saveOrder_cases s { oc with status := OrderStatus.cancelled }
                oid o ho] at ho'
            by_cases hid : o.id = oc.id
            · simp only [hid, if_pos rfl] at ho'
              have hocid : oc.id = j := by simpa using List.find?_some hf
              have hj : j = oid := by rw [← hocid, ← hid, hoid]
              rw [hj, ho] at hf
              rw [Option.some.inj hf]
              rw [← Option.some.inj ho'] at hpaid
              simpa using hpaid
            · simp only [if_neg hid] at ho'
              rw [Option.some.inj ho']
              exact hpaid
    · rw [if_neg hown] at ho'
      exact paid_of_some_inj (ho.symm.trans ho') hpaid

theorem paid_paymentInitPost (s : Sys) (u j : Nat) (prov : String) (oid : Nat)
    (o o' : Order)
    (ho : findOrder s oid = some o)
    (ho' : findOrder (paymentInitPost s u j prov) oid = some o')
    (hpaid : o'.paymentStatus = .paid) : o.paymentStatus = .paid := by
  rcases hf : findOrder s j with _ | oc
  · simp only [paymentInitPost, hf] at ho'
    exact paid_of_some_inj (ho.symm.trans ho') hpaid
  · simp only [paymentInitPost, hf] at ho'
    by_cases hcond : oc.customerId = u ∧ (oc.status = .pending ∨ oc.status = .confirmed)
    · rw [if_neg (not_not_intro hcond)] at ho'
      by_cases hpd : oc.paymentStatus = .paid
      · rw [if_pos hpd] at ho'
        exact paid_of_some_inj (ho.symm.trans ho') hpaid
      · rw [if_neg hpd] at ho'
        rcases hcl : cleanPaymentProvider
            (preparePaymentChoices (orderFarmerConfigs s oc)).allowed prov
          with _ | pv
        · simp only [hcl] at ho'
          exact paid_of_some_inj (ho.symm.trans ho') hpaid
        · simp only [hcl] at ho'
          by_cases hcod : pv = "cod"
          · rw [if_pos hcod] at ho'
            rw [findOrder_set_audits] at ho'
            by_cases hsv : oc.status = .pending ∨ ¬ oc.paymentStatus = .unpaid
            · rw [if_pos hsv] at ho'
              have ht : findOrder { s with payments := s.payments ++
                  [{ id := freshPaymentId s, orderId := oc.id, provider := pv,
                     status := .initiated, amount := oc.totalAmount,
                     currency := "INR", transactionId := "", rawResponse := "" }] }
                  oid = some o := ho
              rw [eq_after_saveOrder_unpaid _ _ oid o o'
                (ite_paymentStatus_unpaid _) ht ho' hpaid]
              exact hpaid
            · rw [if_neg hsv] at ho'
              exact paid_of_some_inj (ho.symm.trans ho') hpaid
          · rw [if_neg hcod] at ho'
            exact paid_of_some_inj (ho.symm.trans ho') hpaid
    · rw [if_pos hcond] at ho'
      exact paid_of_some_inj (ho.symm.trans ho') hpaid

theorem paid_deliveryUpdate (s : Sys) (j : Nat) (st : DeliveryStatus)
    (driver : Option Nat) (oid : Nat) (o o' : Order)
    (ho : findOrder s oid = some o)
    (ho' : findOrder (deliveryUpdate s j st driver) oid = some o')
    (hpaid : o'.paymentStatus = .paid) : o.paymentStatus = .paid := by
  have heq : findOrder (deliveryUpdate s j st driver) oid = findOrder s oid := rfl
  rw [heq] at ho'
  exact paid_of_some_inj (ho.symm.trans ho') hpaid

/-- An admin order form submission selecting payment_status = paid. -/
def sampleAdminPaidForm : AdminOrderForm :=
  { status := .confirmed, paymentStatus := .paid, deliveryAddress := "addr",
    scheduledDate := some 1, scheduledWindow := "morning", notes := "" }

/-- C4 counterexample: the admin order-update form also moves an order's
payment_status to paid, so Payment.mark_successful is not the only such
operation: order 9 is unpaid before and paid after an admin update. -/
theorem c4_counterexample_admin_update_sets_paid :
    (findOrder (runOp (Op.adminUpdate 1 9 sampleAdminPaidForm) sampleSysPay) 9).map
        Order.paymentStatus = some PaymentStatus.paid ∧
    (findOrder sampleSysPay 9).map Order.paymentStatus
        = some PaymentStatus.unpaid := by
  exact ⟨by decide, by decide⟩

/-- C4 amended: across the modelled public operations, only the webhook
success path (Payment.mark_successful) and the admin order-update form can
move an order's payment_status to paid; every other operation leaves a
non-paid order non-paid. -/
theorem c4_paid_only_webhook_or_admin (op : Op) (s : Sys) (oid : Nat)
    (o o' : Order)
    (ho : findOrder s oid = some o)
    (ho' : findOrder (runOp op s) oid = some o')
    (hpaid : o'.paymentStatus = .paid) (hnot : ¬ o.paymentStatus = .paid) :
    (∃ sec req, op = Op.webhook sec req) ∨
    (∃ u i f, op = Op.adminUpdate u i f) := by
  cases op with
  | addItem u c pid raw =>
    exact absurd (paid_addToCartSys s u c pid raw oid o o' ho ho' hpaid) hnot
  | checkout u c form =>
    exact absurd (paid_checkoutOp s u c form oid o o' ho ho' hpaid) hnot
  | cancelOrder u j =>
    exact absurd (paid_cancelOp s u j oid o o' ho ho' hpaid) hnot
  | adminUpdate u j f => exact Or.inr ⟨u, j, f, rfl⟩
  | paymentInit u j prov =>
    exact absurd (paid_paymentInitPost s u j prov oid o o' ho ho' hpaid) hnot
  | webhook sec req => exact Or.inl ⟨sec, req, rfl⟩
  | deliveryProgress j st driver =>
    exact absurd (paid_deliveryUpdate s j st driver oid o o' ho ho' hpaid) hnot

/-- Witness for C4 (amended) at the webhook success operation on the sample
store, which moves order 9 from unpaid to paid. -/
theorem c4_paid_only_webhook_or_admin_witness :
    (∃ sec req, Op.webhook true sampleSuccessReq = Op.webhook sec req) ∨
    (∃ u i f, Op.webhook true sampleSuccessReq = Op.adminUpdate u i f) :=
  c4_paid_only_webhook_or_admin (Op.webhook true sampleSuccessReq) sampleSysPay 9
    samplePendingOrder { samplePendingOrder with paymentStatus := .paid }
    rfl (by decide) (by decide) (by decide)

end RuralMarkNet
